import Mathlib

/-!
Verification development for the mbenadda.com repository: a static-site
content corpus consisting of a site configuration object
(`src/data/SiteConfig.js`) and a Markdown content file with a YAML
front-matter header.  The configuration object and the content file are
embedded below; the front-matter splitter and the configuration loader,
which the repository delegates to an external static-site generator, are
modelled from the specification.
-/

namespace Mbenadda

/-- A social/profile link record, as in the `userLinks` entries of
`src/data/SiteConfig.js`. -/
structure UserLink where
  label : String
  url : String
  iconClassName : String
  deriving DecidableEq, Repr

/-- The `copyright` record of `src/data/SiteConfig.js`: `label` is present,
`year` and `url` are optional (commented out in the source). -/
structure Copyright where
  label : String
  year : Option String
  url : Option String
  deriving DecidableEq, Repr

/-- The typed shape of the configuration record exported by
`src/data/SiteConfig.js`. -/
structure SiteConfig where
  blogPostDir : String
  blogAuthorDir : String
  blogAuthorId : String
  siteTitle : String
  siteTitleAlt : String
  siteLogo : String
  siteUrl : String
  pathPrefix : String
  siteDescription : String
  siteCover : String
  siteNavigation : Bool
  siteRss : String
  siteRssAuthor : String
  sitePaginationLimit : Int
  googleAnalyticsID : String
  siteSocialUrls : List String
  postDefaultCategoryID : String
  userLinks : List UserLink
  copyright : Copyright
  themeColor : String
  backgroundColor : String
  promoteGatsby : Bool
  deriving DecidableEq, Repr

/-- The configuration record of `src/data/SiteConfig.js`, field by field. -/
def siteConfig : SiteConfig where
  blogPostDir := "sample-posts"
  blogAuthorDir := "people"
  blogAuthorId := "mehdi"
  siteTitle := "Mehdi Benadda, freelance web developer"
  siteTitleAlt := "Mehdi Benadda, freelance web developer, JS/TS/Reason"
  siteLogo := "https://haysclark.github.io/gatsby-starter-casper/logos/logo-1024.png"
  siteUrl := "https://haysclark.github.io"
  pathPrefix := "/gatsby-starter-casper"
  siteDescription := "Mainly writing about JS/TS/Reason & Python/Django."
  siteCover := "/images/blog-cover.jpg"
  siteNavigation := true
  siteRss := "/rss.xml"
  siteRssAuthor := "Mehdi Benadda"
  sitePaginationLimit := 10
  googleAnalyticsID := "UA-111982167-1"
  siteSocialUrls :=
    ["https://github.com/mbenadda",
     "https://twitter.com/mbenadda",
     "mailto:hello@mbenadda.com"]
  postDefaultCategoryID := "Tech"
  userLinks :=
    [{ label := "GitHub",
       url := "https://github.com/mbenadda",
       iconClassName := "fa fa-github" },
     { label := "Twitter",
       url := "https://twitter.com/mbenadda",
       iconClassName := "fa fa-twitter" },
     { label := "Email",
       url := "mailto:hello@mbenadda.com",
       iconClassName := "fa fa-envelope" }]
  copyright := { label := "Mehdi Benadda", year := none, url := none }
  themeColor := "#c62828"
  backgroundColor := "#e0e0e0"
  promoteGatsby := true

/-- Untyped JavaScript-like values, used to embed the exported
configuration object literally and to state what a malformed
configuration is. -/
inductive JSVal where
  | str (s : String)
  | num (n : Int)
  | bool (b : Bool)
  | arr (elems : List JSVal)
  | obj (fields : List (String × JSVal))

/-- The field list of the object literal exported by
`src/data/SiteConfig.js`, in source order. -/
def configFields : List (String × JSVal) :=
  [("blogPostDir", .str "sample-posts"),
   ("blogAuthorDir", .str "people"),
   ("blogAuthorId", .str "mehdi"),
   ("siteTitle", .str "Mehdi Benadda, freelance web developer"),
   ("siteTitleAlt", .str "Mehdi Benadda, freelance web developer, JS/TS/Reason"),
   ("siteLogo", .str "https://haysclark.github.io/gatsby-starter-casper/logos/logo-1024.png"),
   ("siteUrl", .str "https://haysclark.github.io"),
   ("pathPrefix", .str "/gatsby-starter-casper"),
   ("siteDescription", .str "Mainly writing about JS/TS/Reason & Python/Django."),
   ("siteCover", .str "/images/blog-cover.jpg"),
   ("siteNavigation", .bool true),
   ("siteRss", .str "/rss.xml"),
   ("siteRssAuthor", .str "Mehdi Benadda"),
   ("sitePaginationLimit", .num 10),
   ("googleAnalyticsID", .str "UA-111982167-1"),
   ("siteSocialUrls", .arr
     [.str "https://github.com/mbenadda",
      .str "https://twitter.com/mbenadda",
      .str "mailto:hello@mbenadda.com"]),
   ("postDefaultCategoryID", .str "Tech"),
   ("userLinks", .arr
     [.obj [("label", .str "GitHub"),
            ("url", .str "https://github.com/mbenadda"),
            ("iconClassName", .str "fa fa-github")],
      .obj [("label", .str "Twitter"),
            ("url", .str "https://twitter.com/mbenadda"),
            ("iconClassName", .str "fa fa-twitter")],
      .obj [("label", .str "Email"),
            ("url", .str "mailto:hello@mbenadda.com"),
            ("iconClassName", .str "fa fa-envelope")]]),
   ("copyright", .obj [("label", .str "Mehdi Benadda")]),
   ("themeColor", .str "#c62828"),
   ("backgroundColor", .str "#e0e0e0"),
   ("promoteGatsby", .bool true)]

/-- The object literal exported by `src/data/SiteConfig.js`. -/
def siteConfigJS : JSVal := .obj configFields

/-- First-match lookup of a field name in an object's field list. -/
def lookupField : List (String × JSVal) → String → Option JSVal
  | [], _ => none
  | (k, v) :: rest, n => if k = n then some v else lookupField rest n

/-- Modelled from the spec: a string is URL-shaped when it carries one of
the URL schemes that appear in the configuration. -/
def isUrlShaped (s : String) : Bool :=
  List.isPrefixOf "http://".data s.data
  || List.isPrefixOf "https://".data s.data
  || List.isPrefixOf "mailto:".data s.data

def isStrVal : JSVal → Bool
  | .str _ => true
  | _ => false

def isBoolVal : JSVal → Bool
  | .bool _ => true
  | _ => false

def isIntVal : JSVal → Bool
  | .num _ => true
  | _ => false

def isUrlString : JSVal → Bool
  | .str s => isUrlShaped s
  | _ => false

def isUrlArr : JSVal → Bool
  | .arr xs => xs.all isUrlString
  | _ => false

/-- A `userLinks` entry: an object with exactly the keys `label`, `url`,
`iconClassName`, each bound to a string. -/
def isUserLinkVal : JSVal → Bool
  | .obj fs => fs.map Prod.fst = ["label", "url", "iconClassName"]
      && (fs.map Prod.snd).all isStrVal
  | _ => false

def isUserLinkArr : JSVal → Bool
  | .arr xs => xs.all isUserLinkVal
  | _ => false

/-- A `copyright` record: `label` present and a string, and every key is
one of `label`, `year`, `url`, each bound to a string. -/
def isCopyrightVal : JSVal → Bool
  | .obj fs =>
      (match lookupField fs "label" with
       | some v => isStrVal v
       | none => false)
      && fs.all (fun p => (p.1 = "label" || p.1 = "year" || p.1 = "url") && isStrVal p.2)
  | _ => false

/-- The recognized configuration field names, in source order. -/
def requiredFields : List String :=
  ["blogPostDir", "blogAuthorDir", "blogAuthorId", "siteTitle", "siteTitleAlt",
   "siteLogo", "siteUrl", "pathPrefix", "siteDescription", "siteCover",
   "siteNavigation", "siteRss", "siteRssAuthor", "sitePaginationLimit",
   "googleAnalyticsID", "siteSocialUrls", "postDefaultCategoryID", "userLinks",
   "copyright", "themeColor", "backgroundColor", "promoteGatsby"]

/-- Modelled from the spec: the expected type of each recognized
configuration field (booleans for `siteNavigation` and `promoteGatsby`, an
integer for `sitePaginationLimit`, URL-shaped strings for `siteSocialUrls`,
link records for `userLinks`, a copyright record for `copyright`, strings
elsewhere). -/
def fieldTypeOk (n : String) (v : JSVal) : Bool :=
  if n = "siteNavigation" || n = "promoteGatsby" then isBoolVal v
  else if n = "sitePaginationLimit" then isIntVal v
  else if n = "siteSocialUrls" then isUrlArr v
  else if n = "userLinks" then isUserLinkArr v
  else if n = "copyright" then isCopyrightVal v
  else isStrVal v

/-- A field is acceptable in an object when it is present with a value of
its expected type. -/
def fieldOk (fs : List (String × JSVal)) (n : String) : Bool :=
  match lookupField fs n with
  | some v => fieldTypeOk n v
  | none => false

def getStr (fs : List (String × JSVal)) (n : String) : String :=
  match lookupField fs n with
  | some (.str s) => s
  | _ => ""

def getBool (fs : List (String × JSVal)) (n : String) : Bool :=
  match lookupField fs n with
  | some (.bool b) => b
  | _ => false

def getInt (fs : List (String × JSVal)) (n : String) : Int :=
  match lookupField fs n with
  | some (.num k) => k
  | _ => 0

def getStrList (fs : List (String × JSVal)) (n : String) : List String :=
  match lookupField fs n with
  | some (.arr xs) => xs.filterMap (fun v => match v with
      | .str s => some s
      | _ => none)
  | _ => []

def toUserLink : JSVal → UserLink
  | .obj fs =>
      { label := getStr fs "label",
        url := getStr fs "url",
        iconClassName := getStr fs "iconClassName" }
  | _ => { label := "", url := "", iconClassName := "" }

def getUserLinks (fs : List (String × JSVal)) (n : String) : List UserLink :=
  match lookupField fs n with
  | some (.arr xs) => xs.map toUserLink
  | _ => []

def getCopyright (fs : List (String × JSVal)) (n : String) : Copyright :=
  match lookupField fs n with
  | some (.obj cfs) =>
      { label := getStr cfs "label",
        year := (match lookupField cfs "year" with
                 | some (.str s) => some s
                 | _ => none),
        url := (match lookupField cfs "url" with
                | some (.str s) => some s
                | _ => none) }
  | _ => { label := "", year := none, url := none }

/-- Error raised when a required setting has the wrong shape or type. -/
inductive ConfigError where
  | malformedConfiguration
  deriving DecidableEq, Repr

/-- Assemble the typed settings record from a validated field list. -/
def buildConfig (fs : List (String × JSVal)) : SiteConfig where
  blogPostDir := getStr fs "blogPostDir"
  blogAuthorDir := getStr fs "blogAuthorDir"
  blogAuthorId := getStr fs "blogAuthorId"
  siteTitle := getStr fs "siteTitle"
  siteTitleAlt := getStr fs "siteTitleAlt"
  siteLogo := getStr fs "siteLogo"
  siteUrl := getStr fs "siteUrl"
  pathPrefix := getStr fs "pathPrefix"
  siteDescription := getStr fs "siteDescription"
  siteCover := getStr fs "siteCover"
  siteNavigation := getBool fs "siteNavigation"
  siteRss := getStr fs "siteRss"
  siteRssAuthor := getStr fs "siteRssAuthor"
  sitePaginationLimit := getInt fs "sitePaginationLimit"
  googleAnalyticsID := getStr fs "googleAnalyticsID"
  siteSocialUrls := getStrList fs "siteSocialUrls"
  postDefaultCategoryID := getStr fs "postDefaultCategoryID"
  userLinks := getUserLinks fs "userLinks"
  copyright := getCopyright fs "copyright"
  themeColor := getStr fs "themeColor"
  backgroundColor := getStr fs "backgroundColor"
  promoteGatsby := getBool fs "promoteGatsby"

/-- Modelled from the spec: the "load configuration" operation of the
external generator.  It returns the full settings record, or fails with
`MalformedConfiguration` when a required field is missing or has a value
of the wrong type. -/
def loadConfiguration : JSVal → Except ConfigError SiteConfig
  | .obj fs =>
      if requiredFields.all (fun n => fieldOk fs n) then .ok (buildConfig fs)
      else .error .malformedConfiguration
  | _ => .error .malformedConfiguration

/-- Remove a field (all bindings of the name) from an object. -/
def removeField : JSVal → String → JSVal
  | .obj fs, n => .obj (fs.filter (fun p => !(p.1 == n)))
  | v, _ => v

/-- Give a field a (new) value in an object: a fresh binding is put in
front, so first-match lookup sees it. -/
def setField : JSVal → String → JSVal → JSVal
  | .obj fs, n, v => .obj ((n, v) :: fs)
  | w, _, _ => w

/-- The key list of an object value. -/
def objKeys : JSVal → List String
  | .obj fs => fs.map Prod.fst
  | _ => []

theorem lookupField_filter_ne (fs : List (String × JSVal)) (n : String) :
    lookupField (fs.filter (fun p => !(p.1 == n))) n = none := by
  induction fs with
  | nil => rfl
  | cons hd tl ih =>
      cases hbeq : hd.1 == n with
      | true => simp [List.filter_cons, hbeq, ih]
      | false =>
          have hne : hd.1 ≠ n := by simpa using hbeq
          simp [List.filter_cons, hbeq, lookupField, hne, ih]

theorem all_eq_false_of_mem {l : List String} {p : String → Bool} {n : String}
    (hmem : n ∈ l) (hp : p n = false) : l.all p = false := by
  cases h : l.all p with
  | false => rfl
  | true =>
      rw [List.all_eq_true] at h
      have := h n hmem
      rw [hp] at this
      exact absurd this (by simp)

theorem loadConfiguration_missing_field (n : String) (hmem : n ∈ requiredFields) :
    loadConfiguration (removeField siteConfigJS n) = .error .malformedConfiguration := by
  have hnone : fieldOk (configFields.filter (fun p => !(p.1 == n))) n = false := by
    simp [fieldOk, lookupField_filter_ne]
  have hall := all_eq_false_of_mem hmem hnone
  simp [siteConfigJS, removeField, loadConfiguration, hall]

theorem loadConfiguration_wrong_type (n : String) (v : JSVal)
    (hmem : n ∈ requiredFields) (hv : fieldTypeOk n v = false) :
    loadConfiguration (setField siteConfigJS n v) = .error .malformedConfiguration := by
  have hbad : fieldOk ((n, v) :: configFields) n = false := by
    simp [fieldOk, lookupField, hv]
  have hall := all_eq_false_of_mem hmem hbad
  simp [siteConfigJS, setField, loadConfiguration, hall]

/-- C2: in the example configuration, `sitePaginationLimit` is `10` and
`siteSocialUrls` is an ordered 3-element sequence whose last element is
`"mailto:hello@mbenadda.com"`. -/
theorem sitePaginationLimit_and_socialUrls :
    siteConfig.sitePaginationLimit = 10
    ∧ siteConfig.siteSocialUrls.length = 3
    ∧ siteConfig.siteSocialUrls.getLast? = some "mailto:hello@mbenadda.com" := by
  decide

/-- C3: loading a configuration with any required field removed, or with
any required field rebound to a value of the wrong type, fails with
`MalformedConfiguration`; loading the example configuration returns the
full settings record. -/
theorem loadConfiguration_validates :
    (∀ n, n ∈ requiredFields →
      loadConfiguration (removeField siteConfigJS n) = .error .malformedConfiguration)
    ∧ (∀ n v, n ∈ requiredFields → fieldTypeOk n v = false →
      loadConfiguration (setField siteConfigJS n v) = .error .malformedConfiguration)
    ∧ loadConfiguration siteConfigJS = .ok siteConfig :=
  ⟨fun n hmem => loadConfiguration_missing_field n hmem,
   fun n v hmem hv => loadConfiguration_wrong_type n v hmem hv,
   rfl⟩

/-- C3 witness: concrete instances — drop `sitePaginationLimit`, or bind it
to a non-integer, and loading fails; loading the example succeeds. -/
theorem loadConfiguration_validates_witness :
    loadConfiguration (removeField siteConfigJS "sitePaginationLimit")
      = .error .malformedConfiguration
    ∧ loadConfiguration (setField siteConfigJS "sitePaginationLimit" (.str "ten"))
      = .error .malformedConfiguration :=
  ⟨loadConfiguration_validates.1 "sitePaginationLimit" (by decide),
   loadConfiguration_validates.2.1 "sitePaginationLimit" (.str "ten") (by decide) (by decide)⟩

/-- C6: the exported configuration object has exactly the recognized field
set, in order, and the special fields have their declared shapes
(`siteNavigation`, `promoteGatsby` booleans; `sitePaginationLimit` an
integer; `siteSocialUrls` URL-shaped strings; `userLinks` link records;
`copyright` a label/year?/url? record; all remaining fields strings). -/
theorem config_record_shape :
    objKeys siteConfigJS =
      ["blogPostDir", "blogAuthorDir", "blogAuthorId", "siteTitle", "siteTitleAlt",
       "siteLogo", "siteUrl", "pathPrefix", "siteDescription", "siteCover",
       "siteNavigation", "siteRss", "siteRssAuthor", "sitePaginationLimit",
       "googleAnalyticsID", "siteSocialUrls", "postDefaultCategoryID", "userLinks",
       "copyright", "themeColor", "backgroundColor", "promoteGatsby"]
    ∧ fieldOk configFields "siteNavigation" = true
    ∧ fieldOk configFields "promoteGatsby" = true
    ∧ fieldOk configFields "sitePaginationLimit" = true
    ∧ fieldOk configFields "siteSocialUrls" = true
    ∧ fieldOk configFields "userLinks" = true
    ∧ fieldOk configFields "copyright" = true
    ∧ requiredFields.all (fun n => fieldOk configFields n) = true := by
  decide

/-- C10: `siteSocialUrls` and `userLinks` both have length 3, and
index for index the social URL equals the link record's `url`, in the
order GitHub, Twitter, Email. -/
theorem socialUrls_match_userLinks :
    siteConfig.siteSocialUrls.length = 3
    ∧ siteConfig.userLinks.length = 3
    ∧ siteConfig.siteSocialUrls = siteConfig.userLinks.map UserLink.url
    ∧ siteConfig.userLinks.map UserLink.label = ["GitHub", "Twitter", "Email"] := by
  decide

/-- Modelled from the spec: the configuration component exposes a single
read operation, "load configuration"; no write operation exists. -/
inductive ConfigOp where
  | loadConfig
  deriving DecidableEq

/-- Modelled from the spec: applying an operation to the loaded record
yields the record state afterwards together with the value read. -/
def applyConfigOp : ConfigOp → SiteConfig → SiteConfig × SiteConfig
  | .loadConfig, c => (c, c)

/-- C7: every configuration field is a static literal (the loaded record
equals a closed record of constants, none computed from another field),
and no operation available after load changes the record. -/
theorem config_static_and_immutable :
    (∀ (op : ConfigOp) (c : SiteConfig), (applyConfigOp op c).1 = c)
    ∧ siteConfig =
      { blogPostDir := "sample-posts",
        blogAuthorDir := "people",
        blogAuthorId := "mehdi",
        siteTitle := "Mehdi Benadda, freelance web developer",
        siteTitleAlt := "Mehdi Benadda, freelance web developer, JS/TS/Reason",
        siteLogo := "https://haysclark.github.io/gatsby-starter-casper/logos/logo-1024.png",
        siteUrl := "https://haysclark.github.io",
        pathPrefix := "/gatsby-starter-casper",
        siteDescription := "Mainly writing about JS/TS/Reason & Python/Django.",
        siteCover := "/images/blog-cover.jpg",
        siteNavigation := true,
        siteRss := "/rss.xml",
        siteRssAuthor := "Mehdi Benadda",
        sitePaginationLimit := 10,
        googleAnalyticsID := "UA-111982167-1",
        siteSocialUrls :=
          ["https://github.com/mbenadda",
           "https://twitter.com/mbenadda",
           "mailto:hello@mbenadda.com"],
        postDefaultCategoryID := "Tech",
        userLinks :=
          [{ label := "GitHub",
             url := "https://github.com/mbenadda",
             iconClassName := "fa fa-github" },
           { label := "Twitter",
             url := "https://twitter.com/mbenadda",
             iconClassName := "fa fa-twitter" },
           { label := "Email",
             url := "mailto:hello@mbenadda.com",
             iconClassName := "fa fa-envelope" }],
        copyright := { label := "Mehdi Benadda", year := none, url := none },
        themeColor := "#c62828",
        backgroundColor := "#e0e0e0",
        promoteGatsby := true } :=
  ⟨fun op c => by cases op; rfl, rfl⟩

/-! ## Front matter

The front-matter splitter is delegated to the external generator; it is
modelled from the specification below.  The example content file
(`src/unnamed/part_000`) is embedded verbatim further down. -/

/-- A YAML front-matter value: a scalar string or an ordered list of
scalar strings. -/
inductive YamlVal where
  | s (v : String)
  | list (items : List String)
  deriving DecidableEq, Repr

/-- Error raised when a content file's header cannot be parsed. -/
inductive FrontMatterError where
  | malformedFrontMatter
  deriving DecidableEq, Repr

/-- Split a character list at newline characters. -/
def splitLinesAux : List Char → List (List Char)
  | [] => [[]]
  | c :: rest =>
      if c = '\n' then [] :: splitLinesAux rest
      else
        match splitLinesAux rest with
        | [] => [[c]]
        | l :: ls => (c :: l) :: ls

/-- Split a string into its lines (newline-separated, every line kept). -/
def splitLines (str : String) : List String :=
  (splitLinesAux str.data).map String.mk

/-- Join lines back with newline separators. -/
def joinLines : List String → String
  | [] => ""
  | [l] => l
  | l :: ls => l ++ "\n" ++ joinLines ls

/-- Split a line list at the first `---` delimiter line: header lines
before it, remaining lines after it. -/
def splitAtDelim : List String → Option (List String × List String)
  | [] => none
  | l :: rest =>
      if l = "---" then some ([], rest)
      else
        match splitAtDelim rest with
        | some (h, b) => some (l :: h, b)
        | none => none

/-- Read the characters of a double-quoted scalar after its opening quote:
backslash escapes the next character, the closing quote must end the
input. -/
def parseQuotedAux : List Char → Option (List Char)
  | [] => none
  | '"' :: rest => if rest.isEmpty then some [] else none
  | '\\' :: c :: rest => (parseQuotedAux rest).map (fun t => c :: t)
  | c :: rest => (parseQuotedAux rest).map (fun t => c :: t)

/-- A scalar value: either a double-quoted string with escapes, or the
raw text itself. -/
def parseScalar (v : String) : Option String :=
  match v.data with
  | '"' :: rest => (parseQuotedAux rest).map String.mk
  | _ => some v

/-- Drop leading space characters. -/
def dropSpaces : List Char → List Char
  | ' ' :: rest => dropSpaces rest
  | cs => cs

/-- A list-item line: indented, and after the indentation a `- ` marker. -/
def isItemLine (l : String) : Bool :=
  match l.data with
  | ' ' :: rest =>
      match dropSpaces rest with
      | '-' :: ' ' :: _ => true
      | _ => false
  | _ => false

/-- The scalar carried by a list-item line. -/
def parseItemLine (l : String) : Option String :=
  match dropSpaces l.data with
  | '-' :: ' ' :: rest => parseScalar (String.mk rest)
  | _ => none

/-- Split a character list at the first colon. -/
def splitAtColon : List Char → Option (List Char × List Char)
  | [] => none
  | ':' :: rest => some ([], rest)
  | c :: rest => (splitAtColon rest).map (fun p => (c :: p.1, p.2))

/-- A key line `key: value` (scalar) or `key:` (start of a list): the key
is the non-empty, space-free text before the first colon. -/
def parseKeyLine (l : String) : Option (String × Option String) :=
  match splitAtColon l.data with
  | none => none
  | some (k, rest) =>
      if k.isEmpty then none
      else if k.contains ' ' then none
      else
        match rest with
        | [] => some (String.mk k, none)
        | ' ' :: vcs => (parseScalar (String.mk vcs)).map (fun v => (String.mk k, some v))
        | _ => none

/-- Process header lines bottom-up, carrying the list items seen
immediately below (`pending`) until their `key:` line attaches them. -/
def parseHeaderAux : List String → Option (List String × List (String × YamlVal))
  | [] => some ([], [])
  | l :: rest => do
      let (pending, acc) ← parseHeaderAux rest
      if isItemLine l then do
        let item ← parseItemLine l
        pure (item :: pending, acc)
      else do
        let (k, sv) ← parseKeyLine l
        match sv with
        | none => pure ([], (k, YamlVal.list pending) :: acc)
        | some v => if pending.isEmpty then pure ([], (k, YamlVal.s v) :: acc) else none

/-- Parse the key-value data of a header block. -/
def parseHeaderLines (ls : List String) : Option (List (String × YamlVal)) := do
  let (pending, acc) ← parseHeaderAux ls
  if pending.isEmpty then pure acc else none

/-- Modelled from the spec: the front-matter splitter of the external
generator.  Given raw file text it produces `(metadata, body)`, or fails
with `MalformedFrontMatter` when the header delimiters are missing or the
header is not valid key-value data. -/
def parseFrontMatter (text : String) :
    Except FrontMatterError (List (String × YamlVal) × String) :=
  match splitLines text with
  | [] => .error .malformedFrontMatter
  | first :: rest =>
      if first = "---" then
        match splitAtDelim rest with
        | none => .error .malformedFrontMatter
        | some (headerLines, bodyLines) =>
            match parseHeaderLines headerLines with
            | none => .error .malformedFrontMatter
            | some meta => .ok (meta, joinLines bodyLines)
      else .error .malformedFrontMatter

/-- The delimited header block of a content file (both `---` delimiter
lines included; with the trailing newline exactly when a body follows). -/
def headerBlockOf (text : String) : String :=
  match splitLines text with
  | [] => ""
  | first :: rest =>
      match splitAtDelim rest with
      | none => ""
      | some (headerLines, bodyLines) =>
          if bodyLines.isEmpty then joinLines (first :: headerLines ++ ["---"])
          else joinLines (first :: headerLines ++ ["---"]) ++ "\n"

/-- First-match lookup of a key in parsed metadata. -/
def lookupMeta : List (String × YamlVal) → String → Option YamlVal
  | [], _ => none
  | (k, v) :: rest, n => if k = n then some v else lookupMeta rest n

/-- Modelled from the spec: author resolution — the author identifier,
when present in the metadata, resolves to itself; otherwise the configured
fallback identifier is used. -/
def resolveAuthor (meta : List (String × YamlVal)) (fallbackId : String) : String :=
  match lookupMeta meta "author" with
  | some (.s a) => a
  | _ => fallbackId

/-- Character-level counterpart of `joinLines`. -/
def joinData : List (List Char) → List Char
  | [] => []
  | [l] => l
  | l :: ls => l ++ '\n' :: joinData ls

theorem splitLinesAux_ne_nil (cs : List Char) : splitLinesAux cs ≠ [] := by
  cases cs with
  | nil => simp [splitLinesAux]
  | cons c rest =>
      simp only [splitLinesAux]
      by_cases h : c = '\n'
      · simp [h]
      · simp only [h, if_false]
        cases splitLinesAux rest <;> simp

theorem joinData_splitLinesAux (cs : List Char) :
    joinData (splitLinesAux cs) = cs := by
  induction cs with
  | nil => rfl
  | cons c rest ih =>
      by_cases h : c = '\n'
      · cases hsplit : splitLinesAux rest with
        | nil => exact absurd hsplit (splitLinesAux_ne_nil rest)
        | cons l ls =>
            rw [hsplit] at ih
            simp [splitLinesAux, h, hsplit, joinData, ih]
      · cases hsplit : splitLinesAux rest with
        | nil => exact absurd hsplit (splitLinesAux_ne_nil rest)
        | cons l ls =>
            rw [hsplit] at ih
            have hstep : splitLinesAux (c :: rest) = (c :: l) :: ls := by
              simp [splitLinesAux, h, hsplit]
            cases ls with
            | nil =>
                simp only [joinData] at ih
                rw [hstep]
                simp only [joinData]
                rw [ih]
            | cons l2 ls2 =>
                simp only [joinData] at ih
                rw [hstep]
                simp only [joinData]
                rw [← ih]
                simp

theorem joinLines_map_mk (ls : List (List Char)) :
    joinLines (ls.map String.mk) = String.mk (joinData ls) := by
  induction ls with
  | nil => rfl
  | cons l ls ih =>
      cases ls with
      | nil => rfl
      | cons l2 ls2 =>
          simp only [List.map, joinLines, joinData] at ih ⊢
          rw [ih]
          apply String.ext
          simp [String.data_append]

theorem joinLines_splitLines (s : String) : joinLines (splitLines s) = s := by
  rw [splitLines, joinLines_map_mk, joinData_splitLinesAux]

theorem string_append_assoc (a b c : String) : a ++ b ++ c = a ++ (b ++ c) := by
  apply String.ext
  simp [String.data_append]

theorem joinLines_append (xs ys : List String) (hx : xs ≠ []) (hy : ys ≠ []) :
    joinLines (xs ++ ys) = joinLines xs ++ "\n" ++ joinLines ys := by
  induction xs with
  | nil => exact absurd rfl hx
  | cons x xs ih =>
      cases xs with
      | nil =>
          cases ys with
          | nil => exact absurd rfl hy
          | cons y ys2 => simp [joinLines]
      | cons x2 xs2 =>
          have hrec := ih (by simp)
          calc joinLines ((x :: x2 :: xs2) ++ ys)
              = x ++ "\n" ++ joinLines ((x2 :: xs2) ++ ys) := rfl
            _ = x ++ "\n" ++ (joinLines (x2 :: xs2) ++ "\n" ++ joinLines ys) := by
                rw [hrec]
            _ = (x ++ "\n" ++ joinLines (x2 :: xs2)) ++ "\n" ++ joinLines ys := by
                simp [string_append_assoc]
            _ = joinLines (x :: x2 :: xs2) ++ "\n" ++ joinLines ys := rfl

theorem splitAtDelim_some (ls hl bl : List String)
    (h : splitAtDelim ls = some (hl, bl)) : ls = hl ++ "---" :: bl := by
  induction ls generalizing hl bl with
  | nil => simp [splitAtDelim] at h
  | cons l rest ih =>
      by_cases hdelim : l = "---"
      · simp [splitAtDelim, hdelim] at h
        obtain ⟨h1, h2⟩ := h
        subst h1; subst h2
        simp [hdelim]
      · cases hsub : splitAtDelim rest with
        | none => simp [splitAtDelim, hdelim, hsub] at h
        | some p =>
            obtain ⟨h1, b1⟩ := p
            simp [splitAtDelim, hdelim, hsub] at h
            obtain ⟨hh, hb⟩ := h
            subst hh; subst hb
            simp [ih h1 b1 hsub]

theorem splitAtDelim_of_not_mem (ls : List String) (h : "---" ∉ ls) :
    splitAtDelim ls = none := by
  induction ls with
  | nil => rfl
  | cons l rest ih =>
      have h1 : ¬(l = "---") := fun hl => h (hl ▸ List.mem_cons_self l rest)
      have h2 : "---" ∉ rest := fun hr => h (List.mem_cons_of_mem l hr)
      simp [splitAtDelim, h1, ih h2]

theorem string_append_empty (s : String) : s ++ "" = s := by
  apply String.ext
  rw [String.data_append]
  exact List.append_nil s.data

/-- C4: a content file that opens with the `---` delimiter but has no
closing `---` line fails with `MalformedFrontMatter`: the splitter never
returns a `(metadata, body)` pair for it. -/
theorem parseFrontMatter_missing_close (text : String)
    (hopen : (splitLines text).head? = some "---")
    (hnoclose : "---" ∉ (splitLines text).tail) :
    parseFrontMatter text = .error .malformedFrontMatter := by
  cases hsl : splitLines text with
  | nil => rw [hsl] at hopen; simp at hopen
  | cons first rest =>
      rw [hsl] at hopen hnoclose
      simp only [List.head?_cons, Option.some.injEq] at hopen
      simp only [List.tail_cons] at hnoclose
      simp [parseFrontMatter, hsl, hopen, splitAtDelim_of_not_mem rest hnoclose]

/-- C4 witness: a concrete file whose closing delimiter is missing. -/
theorem parseFrontMatter_missing_close_witness :
    parseFrontMatter "---\nauthor: mehdi\nno closing delimiter"
      = .error .malformedFrontMatter :=
  parseFrontMatter_missing_close "---\nauthor: mehdi\nno closing delimiter"
    (by decide) (by decide)

/-- C5: the front-matter split is idempotent on well-formed content files:
when splitting yields `(metadata, body)`, re-splitting the text
reconstituted as header block plus body yields the same pair. -/
theorem parseFrontMatter_idempotent (text : String)
    (meta : List (String × YamlVal)) (body : String)
    (h : parseFrontMatter text = .ok (meta, body)) :
    parseFrontMatter (headerBlockOf text ++ body) = .ok (meta, body) := by
  have h0 := h
  cases hsl : splitLines text with
  | nil => simp [parseFrontMatter, hsl] at h
  | cons first rest =>
      by_cases hfirst : first = "---"
      · cases hd : splitAtDelim rest with
        | none => simp [parseFrontMatter, hsl, hfirst, hd] at h
        | some p =>
            obtain ⟨hl, bl⟩ := p
            cases hh : parseHeaderLines hl with
            | none => simp [parseFrontMatter, hsl, hfirst, hd, hh] at h
            | some m =>
                simp only [parseFrontMatter, hsl, hfirst, if_true] at h
                rw [hd] at h
                simp only [hh, Except.ok.injEq, Prod.mk.injEq] at h
                obtain ⟨hmeta, hbody⟩ := h
                have hrest : rest = hl ++ "---" :: bl := splitAtDelim_some rest hl bl hd
                have htext : joinLines (first :: rest) = text := by
                  rw [← hsl]; exact joinLines_splitLines text
                cases bl with
                | nil =>
                    have hblock : headerBlockOf text
                        = joinLines (first :: (hl ++ ["---"])) := by
                      simp [headerBlockOf, hsl, hd]
                    have key : headerBlockOf text ++ body = text := by
                      rw [hblock, ← hbody]
                      rw [show joinLines ([] : List String) = "" from rfl,
                          string_append_empty, ← htext, hrest]
                    rw [key]
                    exact h0
                | cons b1 bs =>
                    have hblock : headerBlockOf text
                        = joinLines (first :: (hl ++ ["---"])) ++ "\n" := by
                      simp [headerBlockOf, hsl, hd]
                    have key : headerBlockOf text ++ body = text := by
                      rw [hblock, ← hbody, ← htext, hrest]
                      have hsplit2 : first :: (hl ++ "---" :: b1 :: bs)
                          = (first :: (hl ++ ["---"])) ++ b1 :: bs := by
                        simp
                      rw [hsplit2, joinLines_append (first :: (hl ++ ["---"])) (b1 :: bs)
                            (by simp) (by simp)]
                    rw [key]
                    exact h0
      · simp [parseFrontMatter, hsl, hfirst] at h

/-- C5 witness: a concrete well-formed file, re-split after
reconstitution. -/
theorem parseFrontMatter_idempotent_witness :
    parseFrontMatter (headerBlockOf "---\nauthor: mehdi\n---\nsome body" ++ "some body")
      = .ok ([("author", YamlVal.s "mehdi")], "some body") :=
  parseFrontMatter_idempotent "---\nauthor: mehdi\n---\nsome body"
    [("author", YamlVal.s "mehdi")] "some body" (by rfl)

/-- The example content file `src/unnamed/part_000`, embedded verbatim. -/
def rawPost : String :=
  "---\nauthor: mehdi\ntitle: \"Typescript's \\\"strict\\\" compiler option\"\ncover: \"/images/posts/2018-04-19/cover.jpg\"\ndate: \"2018-04-19\"\ncategory: default\ntags:\n    - javascript\n    - typescript\n    - build\n    - \"static typing\"\n---\nIn TypeScript 2.3, a new compiler option, \"strict\", was introduced. As its name implies, it provides more stringent compiler checks than the default. It's actually a shortcut for a collection of other options.\n\n*This post is based on a talk [Felix Billon](https://twitter.com/felix_billon) did at the Paris TypeScript Meetup #13. I could not find a blog post equivalent so I made one. Thanks for sharing the knowledge @Felix!*\n\n## How does TypeScript \"strict\" work?\n\n\"strict\" is `false` by default, but `true` when you create a new `tsconfig.json` via `tsc --init`. It enables the following compiler options (we will come back to each of these):\n\n- `noImplicitAny`\n- `noImplicitThis`\n- `alwaysStrict`\n- `strictNullChecks`\n- `strictFunctionTypes`\n- `strictPropertyInitialization`\n\nIndividual flags for each of these options are prioritized over \"strict\". This means you can enable \"strict\" and individually disable any of its 6 parts to adjust the compiler to your needs.\n\nIt is particularly helpful to add TypeScript to an existing project without being overcome by compiler errors. Or to gradually introduce your teammates to the it.\n\nLater on, it will also enable any new *strictness* compiler options that are added to the compiler. Which means you're assured to get them when you upgrade TypeScript.\n\n## What do the \"strict\" checks entail?\n\n### `noImplicitAny`\n\n`noImplicitAny` raises compiler errors in situations when a value's type has not been declared and cannot be inferred.\n\nThis is particularly useful as an undeclared `any` is easy to overlook. It can cause errors downstream in situations when you think the compiler has inferred the types, but it's actually just leaking `any`.\n\n```typescript\n// \"noImplicityAny\": \"false\"\nfunction getModelName(someUri) \x7b\n  return someUri.split('/');\n\x7d\ngetModelName(\x7b model: 'user' \x7d); // Runtime error...\n```\n\nThink the compiler guessed `someUri` should be a string? Think again! Now with `noImplicitAny` enabled:\n\n```typescript\n// \"noImplicitAny\": \"true\"\n// [ts] Parameter 'someUri' implicitly has an 'any' type.\nfunction getModelName(someUri) \x7b\n  return someUri.split('/');\n\x7d\ngetModelName(\x7b model: 'user' \x7d);\n\n```\n\nAs it causes all type checks to pass, it is basically like disabling the compiler and reverting to plain Javascript. Not something you want to do unintentionally.\n\n### `strictNullChecks`\n\n`strictNullChecks` raises errors when you attempt to use `null` or `undefined` when a value of another type is expected.\n\nThis differs from the default as `string` in the default mode is effectively equivalent to `string | null | undefined` under `strictNullChecks`.\n\nAlthough more obvious than implicit `any` situations, overlooked null checks are in our experience the most common source of actual bugs when the option is not enabled.\n\nCommon cases may include:\n\n```typescript\n// Function calls that may or may not return an actual value\n// -> [ts] Object is possibly 'null'.\ndocument.querySelector('some-class').innerHTML\n\n// Optional properties of objects taken for granted\ntype Post = \x7b title?: string \x7d;\n// ...\nconst post: Post = \x7b\x7d;\n// ...\n// -> [ts] Object is possibly 'undefined'.\nlet header = post.title.toUpperCase();\n\n// Set a variable to null when it expects an actual value\nlet name = 'foo';\n// ...\n// [ts] Type 'null' is not assignable to type 'string'.\nname = null;\n```\n\n`strictNullChecks` will result in more ceremonial around accessing values and properties in general. But it will also force you to write more robust code. Missing null checks are effectively unspecified behavior: hence, bugs.\n\nEither you will add checks and specify behavior for null values, or you will architect data flows that branch early and don't propagate unknown quantities.\n\n### `noImplicitThis`\n\n`noImplicitThis` raises errors when `this` is implicitly typed as `any`: when its type has not been declared and cannot be inferred.\n\nOne way this can happen is when you use patterns such as mixins and define functions that use `this` in a separate module or a separate scope.\n\n```typescript\nfunction func() \x7b\n  // The expectation for func's `this.prop` existence and shape is implicit\n  this.prop.doSomething();\n\x7d\n// ...\nconst obj = \x7b id: 42, method: func \x7d;\n// ...\nobj.method(); // Runtime error...\n```\n\nYou may or may not encounter this situation depending on your favored programming paradigm. In any case, in our opinion it's always better to\nexplicitly define the assumptions we make. You can do is like `this`:\n\n```typescript\nfunction func(this: \x7b prop: \x7b doSomething: () => void \x7d \x7d) \x7b\x7d\n```\n\nThis option is pretty beginner-friendly as less experienced developers can often struggle or make wrong assumptions about the value of `this`. Here, either the compiler can tell you itself or it will demand you tell it.\n\n### `strictPropertyInitialization`\n\n`strictPropertyInitialization` is only useful if you work with classes. It raises errors when a non-optional property is neither set via a default nor set in the `constructor` method.\n\nThis can happen if you expect to set the property in another method that you manually call at some point. It creates uncertainty: it is basically a race condition between your manual call and any access to that property anywhere in the code.\n\n```typescript\nclass SomeClass \x7b\n  prop: string;\n  constructor() \x7b\x7d\n  onInit() \x7b this.prop = 'some string'; \x7d\n\x7d\n// ...\nconst cls = new SomeClass();\n// ...\ncls.prop.split(' '); // Runtime error...\n// ...\n// This could easily happen if cls is passed around a lot\ncls.onInit();\n```\n\nWith `strictPropertyInitialization` the compiler will raise `[ts] Property 'prop' has no initializer and is not definitely assigned in the constructor.` at the point where you define the mandatory-but-not-defined property.\n\n```typescript\n// You could specify the uncertainty in your definition...\nclass SomeClass \x7b\n  prop?: string;\n  constructor() \x7b\x7d\n  onInit() \x7b this.prop = 'some string'; \x7d\n\x7d\n\n// Set a sensible default value...\nclass SomeClass \x7b\n  prop: string = 'sensible default';\n  constructor() \x7b\x7d\n  onInit() \x7b this.prop = 'some string'; \x7d\n\x7d\n\n// Manage to do the setting in the constructor...\nclass SomeClass \x7b\n  prop: string;\n  constructor() \x7b this.prop = 'some string'; \x7d\n\x7d\n\n// Or use the definite assertion operator and manage the race condition yourself\nclass SomeClass \x7b\n  prop!: string;\n  constructor() \x7b\x7d\n  onInit() \x7b this.prop = 'some string'; \x7d\n\x7d\n```\n\nAgain, this option requires you to specify behavior and handle it everywhere, or explicitly use the escape hatch (`!`) if you need to. Either way, you make your intentions clear for the compiler and other developers.\n\n### `strictFunctionTypes`\n\nLike `strictPropertyInitialization`, `strictFunctionTypes` is intended to make working with classes safer. It makes function argument checking covariant instead of bivariant.\n\nFor a detailed explanation on covariance & contravariance, take a look at [this wikipedia page](https://en.wikipedia.org/wiki/Covariance_and_contravariance_(computer_science)). As for us, we'll just illustrate this with an example:\n\n[Example taken (and slightly adapted) from @andy-ms on GitHub.](https://github.com/Microsoft/TypeScript/issues/19661#issuecomment-341213979)\n\n```typescript\nclass Vehicle \x7b\n  turn: (t: this) => void;\n\x7d\nclass Motorcycle extends Vehicle \x7b handlebars = function() \x7b\x7d \x7d\nclass Car extends Vehicle \x7b wheel = function() \x7b\x7d \x7d\n\nlet motorcycle: Motorcycle = new Motorcycle();\nlet car: Car = new Car();\n\nlet vehicle: Vehicle = motorcycle;\nmotorcycle.turn = (motorcycle_: Motorcycle) => \x7b\n  motorcycle_.handlebars();\n\x7d;\nlet turn: (vehicle: Vehicle) => void = vehicle.turn;\nvehicle = car;\nvehicle.turn = turn;\n\ncar.turn(car); // Runtime error: car does not have handlebars\n```\n\nHere, the compiler with `strictFunctionTypes` would raise an error on `let vehicle: Vehicle = motorcycle;` because `Property 'handlebars' is missing in type 'Vehicle'.`, which shows us pretty clearly where things went wrong.\n\nAs you can see, you need to be doing convoluted stuff with classes, which we **do not** recommend as there's pretty much always a better, simpler way in Javascript. Still, it's especially nice to have a little help from the compiler when code gets a little messy.\n\nIf you're looking for a deeper explanation for `strictFunctionTypes`, [this PR by @ahejlsberg on GitHub](https://github.com/Microsoft/TypeScript/pull/18654) might be useful to you.\n\n### `alwaysStrict`\n\n`alwaysStrict` simply enables ES5's strict mode, which has been the preferred mode to write Javascript in for a long time. It will also emit `\"use strict\"` if you don't compile to ES6 with modules (those are always in strict mode).\n\nCheck out [the entry on the Mozilla Developer Network](https://developer.mozilla.org/en-US/docs/Web/JavaScript/Reference/Strict_mode) if you want to learn more about Javascript strict mode.\n\n## TL:DR;\n\nAlways set `\"strict\": true` whenever you start a new TypeScript project.\n\nSet `\"strict\": true` with some flags disabled on an existing project and gradually re-enable everything until you're up-to-date.\n\nThe compiler will be much more helpful in avoiding runtime errors and catching some real issues before they get to production.\n"

/-- The front-matter split of the example content file. -/
def examplePostParse : Except FrontMatterError (List (String × YamlVal) × String) :=
  parseFrontMatter rawPost

/-- The metadata of the example content file (empty when parsing fails). -/
def examplePostMeta : List (String × YamlVal) :=
  match examplePostParse with
  | .ok (m, _) => m
  | .error _ => []

/-- The body of the example content file (empty when parsing fails). -/
def exampleBody : String :=
  match examplePostParse with
  | .ok (_, b) => b
  | .error _ => ""

/-- Whether the front-matter split of the example file succeeded. -/
def examplePostParseOk : Bool :=
  match examplePostParse with
  | .ok _ => true
  | .error _ => false

/-- Naive sublist search. -/
def hasSubList (pat : List Char) : List Char → Bool
  | [] => pat.isEmpty
  | c :: rest => pat.isPrefixOf (c :: rest) || hasSubList pat rest

/-- Whether a string contains a fenced code block marker. -/
def containsFence (s : String) : Bool :=
  hasSubList "```".data s.data

/-- Whether an optional metadata value is an ordered list. -/
def isListVal : Option YamlVal → Bool
  | some (YamlVal.list _) => true
  | _ => false

/-- The metadata record the specification claims for the example content
file: author, title, date, category and tags — with no cover entry. -/
def claimedMetaC1 : List (String × YamlVal) :=
  [("author", YamlVal.s "mehdi"),
   ("title", YamlVal.s "Typescript's \"strict\" compiler option"),
   ("date", YamlVal.s "2018-04-19"),
   ("category", YamlVal.s "default"),
   ("tags", YamlVal.list ["javascript", "typescript", "build", "static typing"])]

/-- C1 counterexample: the parsed metadata of the example content file is
not equal to the claimed record, because the file's header carries a
`cover` entry the claimed record lacks. -/
theorem examplePostMeta_ne_claimed :
    examplePostMeta ≠ claimedMetaC1
    ∧ lookupMeta examplePostMeta "cover"
        = some (YamlVal.s "/images/posts/2018-04-19/cover.jpg")
    ∧ lookupMeta claimedMetaC1 "cover" = none := by
  decide

/-- C1 (amended): parsing the example file's front matter succeeds and
yields the claimed values together with the `cover` entry. -/
theorem examplePostMeta_eq :
    examplePostParseOk = true
    ∧ examplePostMeta =
      [("author", YamlVal.s "mehdi"),
       ("title", YamlVal.s "Typescript's \"strict\" compiler option"),
       ("cover", YamlVal.s "/images/posts/2018-04-19/cover.jpg"),
       ("date", YamlVal.s "2018-04-19"),
       ("category", YamlVal.s "default"),
       ("tags", YamlVal.list ["javascript", "typescript", "build", "static typing"])] := by
  decide

set_option maxRecDepth 100000 in
/-- C8: the example content file begins with a delimited header block
whose key-value pairs are author, title, cover, date, category and tags
(tags an ordered list), followed by a non-empty body containing fenced
code samples. -/
theorem examplePost_shape :
    examplePostParseOk = true
    ∧ examplePostMeta.map Prod.fst = ["author", "title", "cover", "date", "category", "tags"]
    ∧ isListVal (lookupMeta examplePostMeta "tags") = true
    ∧ exampleBody ≠ ""
    ∧ containsFence exampleBody = true := by
  decide

/-- C9: the author identifier of the example content file equals the
configured fallback identifier `blogAuthorId` (both are "mehdi"), and
author resolution for this document is independent of the fallback — the
fallback branch is never taken. -/
theorem author_never_falls_back :
    (∀ fallbackId : String, resolveAuthor examplePostMeta fallbackId = "mehdi")
    ∧ siteConfig.blogAuthorId = "mehdi" :=
  ⟨fun _ => rfl, rfl⟩

end Mbenadda
